import Mathlib

/-!
Shallow embedding of the telemetry correlation pipeline of the
FastAPI_OTEL-LGTM repository (services/base/main.py,
services/base/telemetry.py, services/service_b/main.py).

Pure data and control flow of the Python sources is translated to Lean
functions; behavior of the OpenTelemetry library calls the sources make
(context extraction, span creation, the span context manager) is modelled
per the library's documented semantics, since the sources rely on it.
Wall-clock time is modelled by explicit per-step costs; durations are in
integer milliseconds.
-/

namespace FastAPIOtel

/-- Span status codes, as in opentelemetry.trace.status.StatusCode. -/
inductive StatusCode where
  | UNSET
  | OK
  | ERROR
deriving DecidableEq, Repr

/-- A W3C trace context as carried in a traceparent header and as held by a
span: a 128-bit trace id and a 64-bit span id.  Ids are opaque naturals
here; the sources only format and compare them. -/
structure SpanContext where
  traceId : Nat
  spanId : Nat
deriving DecidableEq, Repr

/-- Model of `opentelemetry.trace.INVALID_SPAN_CONTEXT`: the all-zero context that
`get_current_span()` returns (wrapped in INVALID_SPAN) when no span is
active.  It is an instance of the Python class `SpanContext`. -/
def INVALID_SPAN_CONTEXT : SpanContext := ⟨0, 0⟩

/-- Model of `opentelemetry.trace.get_current_span()`: the active span's context when
one is active, otherwise INVALID_SPAN (modelled by its context). -/
def get_current_span (active : Option SpanContext) : SpanContext :=
  active.getD INVALID_SPAN_CONTEXT

/-- A Python Span object is always truthy: `if span` never takes the else
branch. -/
def span_is_truthy (_ : SpanContext) : Bool := true

/-- Model of `isinstance(span.get_span_context(), SpanContext)`: every context that
`get_span_context()` returns, INVALID_SPAN_CONTEXT included, is an
instance of the class `SpanContext`. -/
def isinstance_SpanContext (_ : SpanContext) : Bool := true

/-- Lower-case hex rendering of `n` left-padded with zeros to `width`
characters: Python's `format(n, "032x")` / `format(n, "016x")`. -/
def formatHex (n width : Nat) : String :=
  let ds := Nat.toDigits 16 n
  String.mk (List.replicate (width - ds.length) '0' ++ ds)

/-- A Python logging record after the patched record factory ran: the
correlation fields are `None` or a hex string. -/
structure LogRecord where
  message : String
  trace_id : Option String
  span_id : Option String
deriving DecidableEq, Repr

/-- Embedding of `record_factory` from services/base/main.py lines 57-67 (the copies in
services/base/telemetry.py and services/service_b/main.py are identical):
reads the current span and stamps the record.  `active` is the span context
active at emission time, if any. -/
def record_factory (active : Option SpanContext) (message : String) : LogRecord :=
  let span := get_current_span active
  if span_is_truthy span && isinstance_SpanContext span then
    { message := message
      trace_id := some (formatHex span.traceId 32)
      span_id := some (formatHex span.spanId 16) }
  else
    { message := message, trace_id := none, span_id := none }

/-! ## Propagator: opentelemetry.propagate.extract (W3C TraceContext) -/

/-- Is `c` a lower-case hexadecimal digit (the only digits the W3C
traceparent grammar admits)? -/
def isHexDigit (c : Char) : Bool :=
  (48 ≤ c.toNat && c.toNat ≤ 57) || (97 ≤ c.toNat && c.toNat ≤ 102)

/-- Numeric value of a hex digit. -/
def hexVal (c : Char) : Nat :=
  if c.toNat ≤ 57 then c.toNat - 48 else c.toNat - 87

/-- Parse a non-empty all-hex character sequence to a natural. -/
def parseHex (s : List Char) : Option Nat :=
  if s.length > 0 && s.all isHexDigit then
    some (s.foldl (fun a c => a * 16 + hexVal c) 0)
  else
    none

/-- Split a character sequence at every dash, like Python's
`"a-b-c".split("-")`: `splitDash "a--b"` is `["a", "", "b"]`. -/
def splitDash : List Char → List (List Char)
  | [] => [[]]
  | c :: rest =>
    if c = '-' then
      [] :: splitDash rest
    else
      match splitDash rest with
      | [] => [[c]]
      | g :: gs => (c :: g) :: gs

/-- Model of `opentelemetry.propagate.extract` on the request headers, modelled per
the W3C TraceContextTextMapPropagator the sources install by default:
parse `traceparent: <ver 2hex>-<trace_id 32hex>-<span_id 16hex>-<flags 2hex>`;
absence or any malformation (wrong field count, wrong lengths, non-hex,
version ff, all-zero trace or span id) yields no context rather than an
error. -/
def extract (headers : List (String × String)) : Option SpanContext :=
  match (headers.find? (fun kv => kv.fst == "traceparent")).map Prod.snd with
  | none => none
  | some v =>
    match splitDash v.toList with
    | [ver, tid, sid, flags] =>
      match parseHex ver, parseHex tid, parseHex sid, parseHex flags with
      | some _, some t, some s, some _ =>
        if ver.length == 2 && ver != ['f', 'f'] && tid.length == 32 &&
            sid.length == 16 && flags.length == 2 && t != 0 && s != 0 then
          some ⟨t, s⟩
        else
          none
      | _, _, _, _ => none
    | _ => none

/-! ## Span Recorder -/

/-- Scalar attribute values the sources attach to spans and metrics. -/
inductive AttrVal where
  | str (s : String)
  | nat (n : Nat)
deriving DecidableEq, Repr

/-- A span as the sources build it. -/
structure Span where
  name : String
  traceId : Nat
  spanId : Nat
  parent : Option Nat
  attributes : List (String × AttrVal)
  status : StatusCode
  statusMessage : Option String
  ended : Bool
deriving DecidableEq, Repr

/-- The SDK's random id generator, modelled by the ids it would mint next. -/
structure IdGen where
  freshTraceId : Nat
  freshSpanId : Nat
deriving DecidableEq, Repr

/-- Model of `tracer.start_as_current_span(name, context=ctx)` at span-creation time:
with an extracted parent context the new span keeps the parent's trace id
and records the parent's span id; with no parent it is a root span whose
trace id is freshly minted by the id generator. -/
def start_as_current_span (name : String) (parent : Option SpanContext)
    (gen : IdGen) : Span :=
  match parent with
  | some p =>
    { name := name, traceId := p.traceId, spanId := gen.freshSpanId
      parent := some p.spanId, attributes := [], status := .UNSET
      statusMessage := none, ended := false }
  | none =>
    { name := name, traceId := gen.freshTraceId, spanId := gen.freshSpanId
      parent := none, attributes := [], status := .UNSET
      statusMessage := none, ended := false }

/-! ## Request Pipeline (telemetry_middleware) -/

/-- How the wrapped handler (`call_next`) finished: with a response carrying
a status code, or by raising an exception (identified by a tag). -/
inductive HandlerOutcome where
  | ok (statusCode : Nat)
  | exn (e : Nat)
deriving DecidableEq, Repr

/-- One histogram observation, as passed to `request_duration.record`. -/
structure MetricObs where
  value : Nat
  attributes : List (String × AttrVal)
deriving DecidableEq, Repr

/-- Wall-clock cost (milliseconds) of each step the middleware body takes,
in source order: the `extract` call, span creation, the three
`set_attribute` calls, and the handler (`await call_next`). -/
structure MwTiming where
  tExtract : Nat
  tSpanStart : Nat
  tAttrs : Nat
  tHandler : Nat
deriving DecidableEq, Repr

/-- The observable outcome of one middleware invocation. -/
structure MwRun where
  span : Span
  metrics : List MetricObs
  duration : Option Nat
  result : HandlerOutcome
deriving DecidableEq, Repr

/-- Embedding of `telemetry_middleware` from services/base/main.py lines 91-114 and
services/service_b/main.py lines 99-125.  The two copies are identical
except for the key under which the metric attributes carry the service
instance id (`http.service.instance.id` in base, `service.instance.id` in
service_b), abstracted here as `instanceKey`.

Source order: `ctx = extract(request.headers)`; `start_time = time.time()`;
`with tracer.start_as_current_span(f"{method} {path}", context=ctx) as span:`
set the three initial attributes; `response = await call_next(request)`;
`duration = time.time() - start_time`; `request_duration.record(duration,
{...})`; set `http.status_code` and `http.duration` on the span; return the
response.  If `call_next` raises, the exception escapes the `with` block:
the metric-recording and attribute lines never run, and the span context
manager (defaults `end_on_exit=True`, `set_status_on_exception=True`) sets
the span status to ERROR, ends the span, and re-raises. -/
def telemetry_middleware (instanceKey : String) (method path instanceId : String)
    (headers : List (String × String)) (gen : IdGen) (t : MwTiming)
    (handler : HandlerOutcome) : MwRun :=
  let ctx := extract headers
  let startTime := t.tExtract
  let span0 := start_as_current_span (method ++ " " ++ path) ctx gen
  let span1 := { span0 with
    attributes := span0.attributes ++
      [("http.method", AttrVal.str method), ("http.route", AttrVal.str path),
        ("service.instance.id", AttrVal.str instanceId)] }
  match handler with
  | .ok code =>
    let now := t.tExtract + t.tSpanStart + t.tAttrs + t.tHandler
    let duration := now - startTime
    let obs : MetricObs :=
      { value := duration
        attributes :=
          [("http.route", AttrVal.str path), ("http.status_code", AttrVal.nat code),
            ("http.method", AttrVal.str method), (instanceKey, AttrVal.str instanceId)] }
    let span2 := { span1 with
      attributes := span1.attributes ++
        [("http.status_code", AttrVal.nat code), ("http.duration", AttrVal.nat duration)]
      ended := true }
    { span := span2, metrics := [obs], duration := some duration
      result := .ok code }
  | .exn e =>
    { span := { span1 with status := .ERROR, ended := true }
      metrics := [], duration := none, result := .exn e }

/-- The base service's middleware (services/base/main.py line 91): its
metric attributes carry the instance id under `http.service.instance.id`. -/
def base_telemetry_middleware : String → String → String →
    List (String × String) → IdGen → MwTiming → HandlerOutcome → MwRun :=
  telemetry_middleware "http.service.instance.id"

/-- Service B's middleware (services/service_b/main.py line 99): its metric
attributes carry the instance id under `service.instance.id`. -/
def service_b_telemetry_middleware : String → String → String →
    List (String × String) → IdGen → MwTiming → HandlerOutcome → MwRun :=
  telemetry_middleware "service.instance.id"

/-- The attribute-key list of a metric observation, in source order. -/
def metricKeys (m : MetricObs) : List String :=
  m.attributes.map Prod.fst

/-- The values recorded under `http.status_code` across a run's metric
observations. -/
def metricStatusCodes (r : MwRun) : List AttrVal :=
  r.metrics.filterMap
    (fun m => (m.attributes.find? (fun kv => kv.fst == "http.status_code")).map Prod.snd)

/-! ## Service B's /work handler -/

/-- The observable outcome of one `/work` invocation: the handler's own
span, how long `time.sleep` ran (none when the sleep line never executed),
and the response status code. -/
structure WorkRun where
  span : Span
  slept : Option Nat
  statusCode : Nat
deriving DecidableEq, Repr

/-- Embedding of `work` from services/service_b/main.py lines 129-140.  `draw` is the
value of `randint(50, 200)`, so `work_time = draw / 1000.0` seconds; since
every such quotient and the literal `0.15` round to the nearest double
without changing their order, `work_time > 0.15` holds exactly when
`draw > 150`, and durations are kept in integer milliseconds.  On the slow
path the handler sets the span status to ERROR with message
"Work took too long" and returns a 500 Response without sleeping; otherwise
it sleeps `work_time` and returns a dict, which FastAPI serves with
status 200.  `current` is the span context active when the handler runs
(the middleware's span). -/
def work (draw : Nat) (current : Option SpanContext) (gen : IdGen) : WorkRun :=
  let span0 := start_as_current_span "work-span" current gen
  if 150 < draw then
    { span := { span0 with
        status := .ERROR
        statusMessage := some "Work took too long"
        ended := true }
      slept := none
      statusCode := 500 }
  else
    { span := { span0 with ended := true }
      slept := some draw
      statusCode := 200 }

/-! ## Base service's /external handler -/

/-- The observable outcome of one `/external` invocation. -/
structure ExternalRun where
  span : Span
  statusCode : Nat
  body : List (String × Nat)
deriving DecidableEq, Repr

/-- Embedding of `external_call` from services/base/main.py lines 135-140: opens a child
span `external_call`, performs `requests.get("http://service_b:8000/work")`
(whose status code is `downstreamStatus`), records that code as the span
attribute `external.status_code`, and returns the dict
`{"external_status": resp.status_code}`, which FastAPI serves with
status 200.  `current` is the span context active when the handler runs. -/
def external_call (downstreamStatus : Nat) (current : Option SpanContext)
    (gen : IdGen) : ExternalRun :=
  let span0 := start_as_current_span "external_call" current gen
  let span1 := { span0 with
    attributes := span0.attributes ++
      [("external.status_code", AttrVal.nat downstreamStatus)]
    ended := true }
  { span := span1, statusCode := 200
    body := [("external_status", downstreamStatus)] }

/-! ## Telemetry Context initialization (init_telemetry) -/

/-- The handles `init_telemetry` returns: tracer, meter, logger and the
histogram instrument.  `creation` distinguishes the objects built by
different calls (each call constructs fresh ones). -/
structure TelemetryHandles where
  creation : Nat
  loggerName : String
deriving DecidableEq, Repr

/-- Process-wide telemetry state touched by `init_telemetry`: how many
exporter adapters of each signal type have been constructed, how many
LoggingHandler instances are attached to the root logger, whether the
global tracer/meter providers are set, and how many times the function has
run. -/
structure ProcessState where
  spanExporters : Nat
  metricExporters : Nat
  logExporters : Nat
  exporterEndpoints : List String
  rootLogHandlers : Nat
  globalTracerSet : Bool
  globalMeterSet : Bool
  initCalls : Nat
deriving DecidableEq, Repr

/-- A freshly started process: nothing constructed yet. -/
def initialProcessState : ProcessState :=
  { spanExporters := 0, metricExporters := 0, logExporters := 0
    exporterEndpoints := [], rootLogHandlers := 0
    globalTracerSet := false, globalMeterSet := false, initCalls := 0 }

/-- Embedding of `init_telemetry` from services/base/telemetry.py lines 20-66.  The
function has no guard and no error path: every call unconditionally
constructs an OTLPSpanExporter (with a TracerProvider and
BatchSpanProcessor), an OTLPMetricExporter (with a
PeriodicExportingMetricReader and MeterProvider), and an OTLPLogExporter
(with a LoggerProvider and BatchLogRecordProcessor), attaches a new
LoggingHandler to the root logger via `logging.getLogger().addHandler`,
calls the global `set_tracer_provider` / `set_meter_provider`, and returns
a dict of freshly created handles. -/
def init_telemetry (service_name otel_endpoint : String) (s : ProcessState) :
    ProcessState × TelemetryHandles :=
  let s1 := { s with
    spanExporters := s.spanExporters + 1
    exporterEndpoints := s.exporterEndpoints ++ [otel_endpoint ++ "/v1/traces"]
    globalTracerSet := true }
  let s2 := { s1 with
    metricExporters := s1.metricExporters + 1
    exporterEndpoints := s1.exporterEndpoints ++ [otel_endpoint ++ "/v1/metrics"]
    globalMeterSet := true }
  let s3 := { s2 with
    logExporters := s2.logExporters + 1
    exporterEndpoints := s2.exporterEndpoints ++ [otel_endpoint ++ "/v1/logs"]
    rootLogHandlers := s2.rootLogHandlers + 1 }
  let s4 := { s3 with initCalls := s3.initCalls + 1 }
  (s4, { creation := s4.initCalls, loggerName := service_name ++ "_logger" })

/-! ## Python logging configuration (basicConfig ordering) -/

/-- A handler attached to the root logger: the OTLP LoggingHandler, or a
console StreamHandler carrying a format string. -/
inductive RootHandler where
  | otlp
  | stream (fmt : String)
deriving DecidableEq, Repr

/-- The root logger's handler list. -/
structure RootLogger where
  handlers : List RootHandler
deriving DecidableEq, Repr

/-- Model of `logging.basicConfig(format=fmt, ...)`: per the Python standard
library, it attaches a StreamHandler with the given format only if the
root logger has no handlers yet; otherwise it does nothing. -/
def basicConfig (fmt : String) (root : RootLogger) : RootLogger :=
  if root.handlers.isEmpty then { handlers := [RootHandler.stream fmt] } else root

/-- The human-readable line format the sources pass to basicConfig. -/
def humanFormat : String :=
  "%(asctime)s [%(levelname)s] trace_id=%(trace_id)s span_id=%(span_id)s %(message)s"

/-- The default format `LoggingInstrumentor().instrument(set_logging_format=True)`
passes to its own basicConfig call. -/
def otelInstrumentorFormat : String :=
  "%(asctime)s %(levelname)s [%(name)s] [%(filename)s:%(lineno)d] [trace_id=%(otelTraceID)s span_id=%(otelSpanID)s resource.service.name=%(otelServiceName)s trace_sampled=%(otelTraceSampled)s] - %(message)s"

/-- The root logger's state after the module-level logging setup of
services/base/main.py runs, in source order: line 52
`logging.getLogger().addHandler(handler)` attaches the OTLP
LoggingHandler; line 71 `logging.basicConfig(format=..., level=...)` runs
afterwards; line 86 `LoggingInstrumentor().instrument(set_logging_format=True)`
issues one more basicConfig call.  (services/service_b/main.py lines
63/82/94 run the same sequence.) -/
def baseLoggingSetup : RootLogger :=
  let root : RootLogger := { handlers := [] }
  let root := { root with handlers := root.handlers ++ [RootHandler.otlp] }
  let root := basicConfig humanFormat root
  let root := basicConfig otelInstrumentorFormat root
  root

/-- Does any handler on the root logger format lines with `fmt`? -/
def hasStreamWithFormat (root : RootLogger) (fmt : String) : Bool :=
  root.handlers.any (fun h => h == RootHandler.stream fmt)

/-! ## Theorems for the claims -/

/-- Claim C1, counterexample: when the handler raises, the middleware
records no metric observation at all — the claimed single observation with
a synthetic server-error status code does not exist.  Concretely, a GET /
request on the base service whose handler raises exception 7 leaves the
metric list empty. -/
theorem c1_exception_records_no_metric_cex :
    (base_telemetry_middleware "GET" "/" "host1" [] ⟨1, 2⟩ ⟨0, 0, 0, 0⟩
        (HandlerOutcome.exn 7)).metrics = [] ∧
    ¬ (base_telemetry_middleware "GET" "/" "host1" [] ⟨1, 2⟩ ⟨0, 0, 0, 0⟩
        (HandlerOutcome.exn 7)).metrics.length = 1 := by
  exact ⟨rfl, by decide⟩

/-- Claim C1, amended: on every handler exception the middleware (either
service: `instanceKey` ranges over both variants) ends the span with
status ERROR and re-raises the same exception, but the metric-recording
line never runs, so no observation is recorded. -/
theorem c1_exception_ends_span_skips_metric (instanceKey method path instanceId : String)
    (headers : List (String × String)) (gen : IdGen) (t : MwTiming) (e : Nat) :
    (telemetry_middleware instanceKey method path instanceId headers gen t
        (HandlerOutcome.exn e)).span.ended = true ∧
    (telemetry_middleware instanceKey method path instanceId headers gen t
        (HandlerOutcome.exn e)).span.status = StatusCode.ERROR ∧
    (telemetry_middleware instanceKey method path instanceId headers gen t
        (HandlerOutcome.exn e)).result = HandlerOutcome.exn e ∧
    (telemetry_middleware instanceKey method path instanceId headers gen t
        (HandlerOutcome.exn e)).metrics = [] := by
  exact ⟨rfl, rfl, rfl, rfl⟩

/-- Claim C2: evaluation at the failing input.  With no active span,
`get_current_span()` returns INVALID_SPAN, which is truthy and whose
context is an instance of `SpanContext`, so the record factory's guard is
taken and the record is stamped with the zero-valued hex identifiers —
exactly the values the claim says never appear — instead of leaving both
fields None.  (With an active span the same guard correctly stamps that
span's ids, shown on ⟨10, 11⟩.) -/
theorem c2_no_span_stamps_zero_ids :
    record_factory none "msg" =
      { message := "msg"
        trace_id := some "00000000000000000000000000000000"
        span_id := some "0000000000000000" } ∧
    record_factory (some ⟨10, 11⟩) "msg" =
      { message := "msg"
        trace_id := some "0000000000000000000000000000000a"
        span_id := some "000000000000000b" } := by
  exact ⟨rfl, rfl⟩

/-- Claim C3, counterexample: the metric attribute keys are not the same
for every service instance — on identical inputs, the base middleware
records the instance id under `http.service.instance.id` while service_b
records it under `service.instance.id`. -/
theorem c3_metric_keys_differ_cex :
    (base_telemetry_middleware "GET" "/" "h" [] ⟨1, 2⟩ ⟨0, 0, 0, 0⟩
        (HandlerOutcome.ok 200)).metrics.map metricKeys =
      [["http.route", "http.status_code", "http.method", "http.service.instance.id"]] ∧
    (service_b_telemetry_middleware "GET" "/" "h" [] ⟨1, 2⟩ ⟨0, 0, 0, 0⟩
        (HandlerOutcome.ok 200)).metrics.map metricKeys =
      [["http.route", "http.status_code", "http.method", "service.instance.id"]] ∧
    (base_telemetry_middleware "GET" "/" "h" [] ⟨1, 2⟩ ⟨0, 0, 0, 0⟩
        (HandlerOutcome.ok 200)).metrics.map metricKeys ≠
      (service_b_telemetry_middleware "GET" "/" "h" [] ⟨1, 2⟩ ⟨0, 0, 0, 0⟩
        (HandlerOutcome.ok 200)).metrics.map metricKeys := by
  exact ⟨rfl, rfl, by decide⟩

/-- Claim C3, amended: per completed pipeline invocation each middleware
records exactly one histogram observation whose attributes are the four
dimensions route, status code, method and service instance id, with the
status code reflecting the response — but the instance-id key is
`http.service.instance.id` in the base service and `service.instance.id`
in service_b, and an invocation whose handler raises records no
observation. -/
theorem c3_one_observation_four_keys (method path iid : String)
    (headers : List (String × String)) (gen : IdGen) (t : MwTiming) (code e : Nat) :
    (base_telemetry_middleware method path iid headers gen t
        (HandlerOutcome.ok code)).metrics.length = 1 ∧
    (service_b_telemetry_middleware method path iid headers gen t
        (HandlerOutcome.ok code)).metrics.length = 1 ∧
    (base_telemetry_middleware method path iid headers gen t
        (HandlerOutcome.ok code)).metrics.map metricKeys =
      [["http.route", "http.status_code", "http.method", "http.service.instance.id"]] ∧
    (service_b_telemetry_middleware method path iid headers gen t
        (HandlerOutcome.ok code)).metrics.map metricKeys =
      [["http.route", "http.status_code", "http.method", "service.instance.id"]] ∧
    metricStatusCodes (base_telemetry_middleware method path iid headers gen t
        (HandlerOutcome.ok code)) = [AttrVal.nat code] ∧
    metricStatusCodes (service_b_telemetry_middleware method path iid headers gen t
        (HandlerOutcome.ok code)) = [AttrVal.nat code] ∧
    (base_telemetry_middleware method path iid headers gen t
        (HandlerOutcome.exn e)).metrics = [] ∧
    (service_b_telemetry_middleware method path iid headers gen t
        (HandlerOutcome.exn e)).metrics = [] := by
  exact ⟨rfl, rfl, rfl, rfl, rfl, rfl, rfl, rfl⟩

/-- Claim C4: without a trace-context header (extract yields no context)
the middleware's span is a root span — its trace id is the freshly minted
one and it has no parent; with a valid header carrying trace id T the span
inherits T and its parent is the extracted context's span id.  Holds for
both services (`instanceKey` abstract) and every handler outcome. -/
theorem c4_parenting_follows_extracted_context
    (instanceKey method path instanceId : String)
    (headers : List (String × String)) (gen : IdGen) (t : MwTiming)
    (handler : HandlerOutcome) :
    (extract headers = none →
      (telemetry_middleware instanceKey method path instanceId headers gen t
          handler).span.traceId = gen.freshTraceId ∧
      (telemetry_middleware instanceKey method path instanceId headers gen t
          handler).span.parent = none) ∧
    (∀ c : SpanContext, extract headers = some c →
      (telemetry_middleware instanceKey method path instanceId headers gen t
          handler).span.traceId = c.traceId ∧
      (telemetry_middleware instanceKey method path instanceId headers gen t
          handler).span.parent = some c.spanId) := by
  constructor
  · intro h
    cases handler <;>
      simp [telemetry_middleware, start_as_current_span, h]
  · intro c h
    cases handler <;>
      simp [telemetry_middleware, start_as_current_span, h]

/-- Witness for C4: a request carrying
`traceparent: 00-0000000000000000000000000000000a-000000000000000b-01`
yields a span with trace id 10 and parent span id 11, and a request with
no headers yields a root span with the generator's trace id 1. -/
theorem c4_parenting_follows_extracted_context_witness :
    ((telemetry_middleware "service.instance.id" "GET" "/work" "h"
        [("traceparent", "00-0000000000000000000000000000000a-000000000000000b-01")]
        ⟨1, 2⟩ ⟨0, 0, 0, 0⟩ (HandlerOutcome.ok 200)).span.traceId = 10 ∧
      (telemetry_middleware "service.instance.id" "GET" "/work" "h"
        [("traceparent", "00-0000000000000000000000000000000a-000000000000000b-01")]
        ⟨1, 2⟩ ⟨0, 0, 0, 0⟩ (HandlerOutcome.ok 200)).span.parent = some 11) ∧
    ((telemetry_middleware "http.service.instance.id" "GET" "/" "h" []
        ⟨1, 2⟩ ⟨0, 0, 0, 0⟩ (HandlerOutcome.ok 200)).span.traceId = 1 ∧
      (telemetry_middleware "http.service.instance.id" "GET" "/" "h" []
        ⟨1, 2⟩ ⟨0, 0, 0, 0⟩ (HandlerOutcome.ok 200)).span.parent = none) := by
  constructor
  · exact (c4_parenting_follows_extracted_context "service.instance.id" "GET" "/work" "h"
      [("traceparent", "00-0000000000000000000000000000000a-000000000000000b-01")]
      ⟨1, 2⟩ ⟨0, 0, 0, 0⟩ (HandlerOutcome.ok 200)).2 ⟨10, 11⟩ (by decide)
  · exact (c4_parenting_follows_extracted_context "http.service.instance.id" "GET" "/" "h" []
      ⟨1, 2⟩ ⟨0, 0, 0, 0⟩ (HandlerOutcome.ok 200)).1 (by decide)

/-- Claim C5: for a /work invocation whose drawn duration (in
milliseconds) lies in randint's 50–200 range, the handler marks its span
ERROR and returns 500 when the duration exceeds the 0.15 s threshold and
leaves the span UNSET and returns 200 otherwise; in either case the
service_b middleware wrapping the request records exactly one metric
observation carrying that status code. -/
theorem c5_work_threshold_behaviour (draw : Nat) (cur : Option SpanContext)
    (gen gen2 : IdGen) (t : MwTiming) (iid : String)
    (headers : List (String × String))
    (h1 : 50 ≤ draw) (h2 : draw ≤ 200) :
    (150 < draw →
      (work draw cur gen2).span.status = StatusCode.ERROR ∧
      (work draw cur gen2).statusCode = 500) ∧
    (draw ≤ 150 →
      (work draw cur gen2).span.status = StatusCode.UNSET ∧
      (work draw cur gen2).statusCode = 200) ∧
    (service_b_telemetry_middleware "GET" "/work" iid headers gen t
        (HandlerOutcome.ok (work draw cur gen2).statusCode)).metrics.length = 1 ∧
    metricStatusCodes (service_b_telemetry_middleware "GET" "/work" iid headers gen t
        (HandlerOutcome.ok (work draw cur gen2).statusCode)) =
      [AttrVal.nat (work draw cur gen2).statusCode] := by
  refine ⟨?_, ?_, rfl, rfl⟩
  · intro hd
    cases cur <;> simp [work, hd, start_as_current_span]
  · intro hd
    have hn : ¬ 150 < draw := by omega
    cases cur <;> simp [work, hn, start_as_current_span]

/-- Witness for C5 at draw = 160 ms (in range, above the threshold): span
ERROR, response 500, one metric observation with status code 500. -/
theorem c5_work_threshold_behaviour_witness :
    (150 < 160 →
      (work 160 none ⟨1, 2⟩).span.status = StatusCode.ERROR ∧
      (work 160 none ⟨1, 2⟩).statusCode = 500) ∧
    (160 ≤ 150 →
      (work 160 none ⟨1, 2⟩).span.status = StatusCode.UNSET ∧
      (work 160 none ⟨1, 2⟩).statusCode = 200) ∧
    (service_b_telemetry_middleware "GET" "/work" "h" [] ⟨3, 4⟩ ⟨0, 0, 0, 0⟩
        (HandlerOutcome.ok (work 160 none ⟨1, 2⟩).statusCode)).metrics.length = 1 ∧
    metricStatusCodes (service_b_telemetry_middleware "GET" "/work" "h" [] ⟨3, 4⟩ ⟨0, 0, 0, 0⟩
        (HandlerOutcome.ok (work 160 none ⟨1, 2⟩).statusCode)) =
      [AttrVal.nat (work 160 none ⟨1, 2⟩).statusCode] :=
  c5_work_threshold_behaviour 160 none ⟨3, 4⟩ ⟨1, 2⟩ ⟨0, 0, 0, 0⟩ "h" []
    (by decide) (by decide)

/-- Claim C6, counterexample: two calls to init_telemetry from a fresh
process construct two sets of exporter adapters (two span, two metric and
two log exporters), attach two LoggingHandlers to the root logger — so
every log record is exported twice — and return distinct fresh handles;
no error of any kind is raised. -/
theorem c6_double_init_duplicates_exporters_cex :
    ((init_telemetry "base" "http://otel-collector:4318"
        (init_telemetry "base" "http://otel-collector:4318"
          initialProcessState).1).1).spanExporters = 2 ∧
    ((init_telemetry "base" "http://otel-collector:4318"
        (init_telemetry "base" "http://otel-collector:4318"
          initialProcessState).1).1).metricExporters = 2 ∧
    ((init_telemetry "base" "http://otel-collector:4318"
        (init_telemetry "base" "http://otel-collector:4318"
          initialProcessState).1).1).logExporters = 2 ∧
    ((init_telemetry "base" "http://otel-collector:4318"
        (init_telemetry "base" "http://otel-collector:4318"
          initialProcessState).1).1).rootLogHandlers = 2 ∧
    (init_telemetry "base" "http://otel-collector:4318"
        (init_telemetry "base" "http://otel-collector:4318"
          initialProcessState).1).2 ≠
      (init_telemetry "base" "http://otel-collector:4318"
        initialProcessState).2 := by
  refine ⟨rfl, rfl, rfl, rfl, by decide⟩

/-- Claim C6, amended: init_telemetry has no idempotency guard and no
error path — every repeated call silently constructs one more span, metric
and log exporter, attaches one more LoggingHandler to the root logger, and
returns handles distinct from those of every earlier call. -/
theorem c6_every_call_builds_new_exporters (n1 e1 n2 e2 : String) (s : ProcessState) :
    ((init_telemetry n2 e2 (init_telemetry n1 e1 s).1).1).spanExporters =
      s.spanExporters + 2 ∧
    ((init_telemetry n2 e2 (init_telemetry n1 e1 s).1).1).metricExporters =
      s.metricExporters + 2 ∧
    ((init_telemetry n2 e2 (init_telemetry n1 e1 s).1).1).logExporters =
      s.logExporters + 2 ∧
    ((init_telemetry n2 e2 (init_telemetry n1 e1 s).1).1).rootLogHandlers =
      s.rootLogHandlers + 2 ∧
    (init_telemetry n1 e1 s).2.creation = s.initCalls + 1 ∧
    (init_telemetry n2 e2 (init_telemetry n1 e1 s).1).2.creation = s.initCalls + 2 := by
  exact ⟨rfl, rfl, rfl, rfl, rfl, rfl⟩

/-- Claim C7, counterexample: with extraction costing 2 ms, span creation
3 ms, attribute annotation 4 ms and the handler 5 ms, the middleware
records a duration of 12 ms — span creation and attribute annotation
included — not the 5 ms of handler execution alone, because
`start_time = time.time()` runs before the span is started. -/
theorem c7_duration_includes_span_setup_cex :
    (base_telemetry_middleware "GET" "/" "h" [] ⟨1, 2⟩
        { tExtract := 2, tSpanStart := 3, tAttrs := 4, tHandler := 5 }
        (HandlerOutcome.ok 200)).duration = some 12 ∧
    (base_telemetry_middleware "GET" "/" "h" [] ⟨1, 2⟩
        { tExtract := 2, tSpanStart := 3, tAttrs := 4, tHandler := 5 }
        (HandlerOutcome.ok 200)).duration ≠ some 5 := by
  exact ⟨rfl, by decide⟩

/-- Claim C7, amended: the wall-clock start is recorded after header
extraction but before the span is started, so for every completed
invocation the recorded duration is the time of span creation plus
attribute annotation plus handler execution. -/
theorem c7_duration_formula (instanceKey method path instanceId : String)
    (headers : List (String × String)) (gen : IdGen) (t : MwTiming) (code : Nat) :
    (telemetry_middleware instanceKey method path instanceId headers gen t
        (HandlerOutcome.ok code)).duration =
      some (t.tSpanStart + t.tAttrs + t.tHandler) := by
  simp only [telemetry_middleware]
  congr 1
  omega

/-- Claim C8: evaluation at the failing input.  The base service's startup
attaches the OTLP LoggingHandler to the root logger before either
basicConfig call runs, so basicConfig is a no-op and no console handler
carrying the documented human-readable format is ever installed — had the
root logger still been handler-free, the same call would have installed
it. -/
theorem c8_human_format_never_installed :
    baseLoggingSetup.handlers = [RootHandler.otlp] ∧
    hasStreamWithFormat baseLoggingSetup humanFormat = false ∧
    hasStreamWithFormat (basicConfig humanFormat { handlers := [] }) humanFormat = true := by
  exact ⟨rfl, by decide, by decide⟩

/-- Claim C9: when the drawn work_time exceeds the 0.15 s threshold the
/work handler returns the 500 response without ever reaching the
`time.sleep(work_time)` line, and when it does not, the handler sleeps for
exactly the drawn duration on the success path. -/
theorem c9_slow_path_never_sleeps (draw : Nat) (cur : Option SpanContext)
    (gen : IdGen) :
    (150 < draw →
      (work draw cur gen).slept = none ∧ (work draw cur gen).statusCode = 500) ∧
    (draw ≤ 150 →
      (work draw cur gen).slept = some draw ∧ (work draw cur gen).statusCode = 200) := by
  constructor
  · intro h
    simp [work, h]
  · intro h
    have hn : ¬ 150 < draw := by omega
    simp [work, hn]

/-- Witness for C9 at draw = 180 ms: no sleep happens and the response is
500. -/
theorem c9_slow_path_never_sleeps_witness :
    (work 180 none ⟨1, 2⟩).slept = none ∧ (work 180 none ⟨1, 2⟩).statusCode = 500 :=
  (c9_slow_path_never_sleeps 180 none ⟨1, 2⟩).1 (by decide)

/-- Claim C10: whatever status code the downstream /work request returns
(500 included), the /external handler itself responds with 200, reports
the downstream code in the body as external_status, and records it only as
the child span's external.status_code attribute. -/
theorem c10_external_always_200 (downstreamStatus : Nat)
    (cur : Option SpanContext) (gen : IdGen) :
    (external_call downstreamStatus cur gen).statusCode = 200 ∧
    (external_call downstreamStatus cur gen).body =
      [("external_status", downstreamStatus)] ∧
    ((external_call downstreamStatus cur gen).span.attributes.find?
        (fun kv => kv.fst == "external.status_code")).map Prod.snd =
      some (AttrVal.nat downstreamStatus) := by
  refine ⟨rfl, rfl, ?_⟩
  cases cur <;> rfl

end FastAPIOtel
